import Mathlib

/-!
Shallow embedding of `src/server.py` of the mcp-server-pr-agent repository.

The server exposes three operation handlers (`review_pr`, `describe_pr`,
`find_bugs`).  Each handler mutates the process-wide settings object,
invokes an external PR agent with a URL and a command string, and turns
the agent's outcome into a plain result string, catching every exception
raised by the agent invocation.

Modelling choices, all taken from the source:
* The process-wide settings object (`get_settings()`) is a partial map
  from dotted key strings to values; `Settings.set` is the embedding of
  `get_settings().set(key, value)`.
* The external agent (`PRAgent.handle_request`) is a black box that
  observes the settings at call time, receives the URL and the command
  string, and either returns an `Option String` (Python `None` for no
  content) or raises an exception carrying a message string
  (`Except.error`).
* A handler run is recorded as a `HandlerResult`: the returned string,
  the settings state when the handler returns, and the settings state,
  URL and command passed at the single agent invocation the handler
  performs.
* Python's `re.findall` applied to the bug-section pattern of
  `find_bugs` (one capture group holding the alternation of six literal
  headings, followed by a lazy DOTALL tail up to a lookahead for `##` or
  end of input) is embedded by `findAux`: it scans left to right, at
  each position tries the six literal headings in pattern order, and on
  a hit emits the captured group - which is exactly the heading literal,
  since the capture group encloses only the alternation - and resumes
  at the next occurrence of `##` (or the end), mirroring that `findall`
  resumes scanning at the end of the full match.
-/

namespace PRAgentServer

/-- A value stored in the process-wide settings object: the server only
ever writes booleans and strings. -/
inductive SettingValue where
  | bool (b : Bool)
  | str (s : String)
deriving DecidableEq

/-- The process-wide settings object, a partial map from dotted key
strings to values. -/
abbrev Settings : Type := String → Option SettingValue

/-- Embedding of `get_settings().set(key, value)`. -/
def Settings.set (st : Settings) (key : String) (v : SettingValue) : Settings :=
  fun k => if k = key then some v else st k

/-- A settings state with every key unset. -/
def emptySettings : Settings := fun _ => none

/-- Outcome of one agent invocation: an exception with its message, or a
returned `Optional[str]`. -/
abbrev AgentOutcome : Type := Except String (Option String)

/-- The external PR agent: reads the settings at call time, receives the
PR URL and the command string. -/
abbrev Agent : Type := Settings → String → String → AgentOutcome

/-- Observable record of one handler run. -/
structure HandlerResult where
  /-- The string returned to the caller. -/
  output : String
  /-- The process-wide settings when the handler returns. -/
  settings : Settings
  /-- The settings observed by the agent at call time. -/
  callSettings : Settings
  /-- The URL passed to the agent. -/
  callUrl : String
  /-- The command string passed to the agent. -/
  callCommand : String

/-- Python `result or fallback` on an `Optional[str]`: both `None` and
the empty string are falsy. -/
def pyOrElse (r : Option String) (fb : String) : String :=
  match r with
  | none => fb
  | some t => if t = "" then fb else t

/-! ### The bug-section scan of `find_bugs` (lines 108-113 of server.py) -/

/-- The six heading literals of the alternation in the `re.findall`
pattern, in pattern order. -/
def headingStrings : List String :=
  ["## Bugs", "### Bugs", "## Possible Issues", "### Possible Issues",
   "## Security Issues", "### Security Issues"]

/-- The six heading literals as character lists. -/
def headingsL : List (List Char) := headingStrings.map String.toList

/-- At the current scan position, the first alternative of the pattern's
capture group that matches, if any. -/
def matchHeading (s : List Char) : Option (List Char) :=
  headingsL.find? (fun h => h.isPrefixOf s)

/-- Advance to the next position where `##` starts, or to the end of
input: the extent of the lazy `.*?(?=##|\Z)` tail of the pattern under
`re.DOTALL`. -/
def skipToNextHH : List Char → List Char
  | [] => []
  | c :: rest => if ['#', '#'].isPrefixOf (c :: rest) then c :: rest else skipToNextHH rest

/-- `re.findall` of the bug-section pattern: scan left to right; on a
heading hit emit the captured group (the heading literal) and resume at
the end of the full match, i.e. after the lazy tail.  The fuel is the
input length; every step consumes at least one character, so it never
runs out. -/
def findAux : Nat → List Char → List (List Char)
  | 0, _ => []
  | _ + 1, [] => []
  | fuel + 1, c :: rest =>
    match matchHeading (c :: rest) with
    | some h => h :: findAux fuel (skipToNextHH ((c :: rest).drop h.length))
    | none => findAux fuel rest

/-- `re.findall(r'(## Bugs|### Bugs|## Possible Issues|### Possible Issues|## Security Issues|### Security Issues).*?(?=##|\Z)', result, re.DOTALL)`. -/
def findBugSections (s : String) : List String :=
  (findAux s.toList.length s.toList).map fun cs => String.mk cs

/-- Lines 112-116 of server.py: join the matched sections under the
synthesized heading, or report that no section matched. -/
def bugScanTransform (result : String) : String :=
  if (findBugSections result).isEmpty then
    "# Bug Scan Results\n\nNo critical bugs or issues were identified in the scan.\n\n"
      ++ "Full review content:\n\n" ++ result
  else
    "# Bug Scan Results\n\n" ++ String.intercalate "\n\n" (findBugSections result)

/-! ### The three operation handlers -/

/-- The two settings writes of `review_pr` (lines 36-37), applied in
source order. -/
def reviewOverrides (s : Settings) : Settings :=
  (s.set "pr_reviewer.enable_review_labels_security" (.bool false)).set
    "pr_reviewer.enable_review_labels_effort" (.bool false)

/-- `review_pr` (lines 19-43): apply the two overrides, invoke the agent
with `/review`, return its text or the fallback, catching any exception. -/
def review_pr (agent : Agent) (pr_url : String) (s0 : Settings) : HandlerResult :=
  match agent (reviewOverrides s0) pr_url "/review" with
  | .ok result =>
    { output := pyOrElse result "Review completed, but no results were returned."
      settings := reviewOverrides s0
      callSettings := reviewOverrides s0
      callUrl := pr_url
      callCommand := "/review" }
  | .error e =>
    { output := "Error reviewing PR: " ++ e
      settings := reviewOverrides s0
      callSettings := reviewOverrides s0
      callUrl := pr_url
      callCommand := "/review" }

/-- `describe_pr` (lines 46-67): no settings writes, invoke the agent
with `/describe`, return its text or the fallback, catching any
exception. -/
def describe_pr (agent : Agent) (pr_url : String) (s0 : Settings) : HandlerResult :=
  match agent s0 pr_url "/describe" with
  | .ok result =>
    { output := pyOrElse result "Description generated, but no results were returned."
      settings := s0
      callSettings := s0
      callUrl := pr_url
      callCommand := "/describe" }
  | .error e =>
    { output := "Error describing PR: " ++ e
      settings := s0
      callSettings := s0
      callUrl := pr_url
      callCommand := "/describe" }

/-- The fixed extra-instructions directive set by `find_bugs`
(lines 93-94). -/
def bugFocusInstructions : String :=
  "Focus exclusively on identifying bugs, logic errors, security vulnerabilities, and potential runtime issues. Skip style and maintainability concerns."

/-- The seven settings writes of `find_bugs` (lines 87-94), applied in
source order. -/
def findBugsOverrides (s : Settings) : Settings :=
  ((((((s.set "pr_reviewer.enable_review_labels_security" (.bool false)).set
    "pr_reviewer.enable_review_labels_effort" (.bool false)).set
    "pr_reviewer.require_score_review" (.bool false)).set
    "pr_reviewer.require_tests_review" (.bool false)).set
    "pr_reviewer.require_security_review" (.bool true)).set
    "pr_reviewer.require_focused_review" (.bool false)).set
    "pr_reviewer.extra_instructions" (.str bugFocusInstructions)

/-- The two settings writes on lines 100-101 of server.py.  In the
source they sit inside the `try` block after the `await`, so they run
only when the agent invocation returns normally. -/
def findBugsReset (s : Settings) : Settings :=
  (s.set "pr_reviewer.require_security_review" (.bool true)).set
    "pr_reviewer.extra_instructions" (.str "")

/-- `find_bugs` (lines 70-121): apply the seven overrides, invoke the
agent with `/review`; on normal return, run the two resets and
post-process the text (section scan, fallback for empty output); on an
exception, skip the resets and return the error string. -/
def find_bugs (agent : Agent) (pr_url : String) (s0 : Settings) : HandlerResult :=
  match agent (findBugsOverrides s0) pr_url "/review" with
  | .ok result =>
    { output :=
        match result with
        | some t =>
          if t = "" then "Bug scan completed, but no results were returned."
          else bugScanTransform t
        | none => "Bug scan completed, but no results were returned."
      settings := findBugsReset (findBugsOverrides s0)
      callSettings := findBugsOverrides s0
      callUrl := pr_url
      callCommand := "/review" }
  | .error e =>
    { output := "Error scanning PR for bugs: " ++ e
      settings := findBugsOverrides s0
      callSettings := findBugsOverrides s0
      callUrl := pr_url
      callCommand := "/review" }

/-- `True` when no position of the input matches any of the six heading
literals, i.e. none of them occurs as a substring. -/
def headingFree : List Char → Bool
  | [] => true
  | c :: rest => (matchHeading (c :: rest)).isNone && headingFree rest

/-! ### Stub agents used to exercise the handlers on concrete runs -/

/-- A stub agent that always raises, with message `boom`. -/
def errAgent : Agent := fun _ _ _ => .error "boom"

/-- A stub agent that returns no content (Python `None`). -/
def noneAgent : Agent := fun _ _ _ => .ok none

/-- A stub agent that returns the empty string. -/
def emptyTextAgent : Agent := fun _ _ _ => .ok (some "")

/-- A stub agent returning the review text of the spec's end-to-end
`find_bugs` example. -/
def exampleAgent : Agent := fun _ _ _ =>
  .ok (some "## Bugs\nOff-by-one in loop.\n## Style\nUse snake_case.")

/-- A stub agent returning a review whose only heading line carries four
hash marks. -/
def fourHashAgent : Agent := fun _ _ _ =>
  .ok (some "#### Bugs\nNull dereference in handler.")

/-- A stub agent returning text with no recognized heading. -/
def plainTextAgent : Agent := fun _ _ _ => .ok (some "All good.")

/-! ### Helper lemmas about the section scan -/

/-- A heading returned by `matchHeading` is one of the six literals. -/
theorem matchHeading_mem {s h : List Char} (hm : matchHeading s = some h) :
    h ∈ headingsL := by
  rw [matchHeading] at hm
  exact List.mem_of_find?_eq_some hm

/-- On heading-free input the scan finds nothing, whatever the fuel. -/
theorem findAux_of_headingFree :
    ∀ (fuel : Nat) (s : List Char), headingFree s = true → findAux fuel s = [] := by
  intro fuel
  induction fuel with
  | zero => intro s _; rfl
  | succ n ih =>
    intro s hs
    cases s with
    | nil => rfl
    | cons c rest =>
      rw [headingFree, Bool.and_eq_true, Option.isNone_iff_eq_none] at hs
      simp only [findAux, hs.1]
      exact ih rest hs.2

/-- Every string the scan emits is one of the six heading literals. -/
theorem findAux_mem_headingsL :
    ∀ (fuel : Nat) (s x : List Char), x ∈ findAux fuel s → x ∈ headingsL := by
  intro fuel
  induction fuel with
  | zero => intro s x hx; simp [findAux] at hx
  | succ n ih =>
    intro s x hx
    cases s with
    | nil => simp [findAux] at hx
    | cons c rest =>
      cases hm : matchHeading (c :: rest) with
      | some h =>
        simp only [findAux, hm, List.mem_cons] at hx
        cases hx with
        | inl he => exact he ▸ matchHeading_mem hm
        | inr ht => exact ih _ x ht
      | none =>
        simp only [findAux, hm] at hx
        exact ih rest x hx

/-! ### Claims -/

/-- C1: the spec's end-to-end `find_bugs` example claims the output
"# Bug Scan Results\n\n## Bugs\nOff-by-one in loop.\n" (heading plus
body).  The code's `re.findall` pattern has a capture group around the
heading alternation only, so `findall` returns just the heading
literals: the handler actually returns "# Bug Scan Results\n\n## Bugs",
dropping the section body the pattern's lazy tail was written to cover. -/
theorem c1_find_bugs_example_heading_only :
    (find_bugs exampleAgent "u" emptySettings).output = "# Bug Scan Results\n\n## Bugs"
  ∧ (find_bugs exampleAgent "u" emptySettings).output ≠
      "# Bug Scan Results\n\n## Bugs\nOff-by-one in loop.\n" := by
  constructor <;> decide

/-- C2: for each of the three operations, an exception raised by the
agent invocation is caught and turned into the operation's error string;
the handlers are total functions into strings, so nothing propagates. -/
theorem c2_exceptions_become_error_strings (agent : Agent) (url : String)
    (s0 : Settings) (e : String) :
    (agent (reviewOverrides s0) url "/review" = .error e →
      (review_pr agent url s0).output = "Error reviewing PR: " ++ e)
  ∧ (agent s0 url "/describe" = .error e →
      (describe_pr agent url s0).output = "Error describing PR: " ++ e)
  ∧ (agent (findBugsOverrides s0) url "/review" = .error e →
      (find_bugs agent url s0).output = "Error scanning PR for bugs: " ++ e) := by
  refine ⟨fun h => ?_, fun h => ?_, fun h => ?_⟩
  · simp [review_pr, h]
  · simp [describe_pr, h]
  · simp [find_bugs, h]

/-- Witness for C2: a concrete raising agent on all three handlers. -/
theorem c2_exceptions_become_error_strings_witness :
    (review_pr errAgent "u" emptySettings).output = "Error reviewing PR: " ++ "boom"
  ∧ (describe_pr errAgent "u" emptySettings).output = "Error describing PR: " ++ "boom"
  ∧ (find_bugs errAgent "u" emptySettings).output = "Error scanning PR for bugs: " ++ "boom" :=
  ⟨(c2_exceptions_become_error_strings errAgent "u" emptySettings "boom").1 rfl,
   (c2_exceptions_become_error_strings errAgent "u" emptySettings "boom").2.1 rfl,
   (c2_exceptions_become_error_strings errAgent "u" emptySettings "boom").2.2 rfl⟩

/-- C3 counterexample: the resets on lines 100-101 of server.py sit
inside the `try` block after the agent invocation, so when the
invocation raises they are skipped: after a raising `find_bugs` run,
`pr_reviewer.extra_instructions` still holds the bug-focus directive,
not the empty string the claim requires. -/
theorem c3_reset_skipped_on_exception :
    ¬ ((find_bugs errAgent "u" emptySettings).settings
        "pr_reviewer.extra_instructions" = some (.str "")) := by
  decide

/-- C3 amended: when the agent invocation returns normally, the handler
resets `pr_reviewer.require_security_review` to `True` and
`pr_reviewer.extra_instructions` to the empty string before returning;
when it raises, the resets are skipped, so `extra_instructions` retains
the bug-focus directive (`require_security_review` holds `True` on both
paths, having been set `True` before the invocation). -/
theorem c3_reset_on_success_only (agent : Agent) (url : String) (s0 : Settings) :
    (∀ r : Option String, agent (findBugsOverrides s0) url "/review" = .ok r →
        (find_bugs agent url s0).settings "pr_reviewer.require_security_review"
            = some (.bool true)
      ∧ (find_bugs agent url s0).settings "pr_reviewer.extra_instructions"
            = some (.str ""))
  ∧ (∀ e : String, agent (findBugsOverrides s0) url "/review" = .error e →
        (find_bugs agent url s0).settings "pr_reviewer.require_security_review"
            = some (.bool true)
      ∧ (find_bugs agent url s0).settings "pr_reviewer.extra_instructions"
            = some (.str bugFocusInstructions)) := by
  constructor
  · intro r h
    simp only [find_bugs, h]
    constructor <;> simp [findBugsReset, findBugsOverrides, Settings.set]
  · intro e h
    simp only [find_bugs, h]
    constructor <;> simp [findBugsOverrides, Settings.set]

/-- Witness for C3 amended: one normally-returning and one raising run. -/
theorem c3_reset_on_success_only_witness :
    ((find_bugs noneAgent "u" emptySettings).settings "pr_reviewer.require_security_review"
        = some (.bool true)
    ∧ (find_bugs noneAgent "u" emptySettings).settings "pr_reviewer.extra_instructions"
        = some (.str ""))
  ∧ ((find_bugs errAgent "u" emptySettings).settings "pr_reviewer.require_security_review"
        = some (.bool true)
    ∧ (find_bugs errAgent "u" emptySettings).settings "pr_reviewer.extra_instructions"
        = some (.str bugFocusInstructions)) :=
  ⟨(c3_reset_on_success_only noneAgent "u" emptySettings).1 none rfl,
   (c3_reset_on_success_only errAgent "u" emptySettings).2 "boom" rfl⟩

/-- C4 counterexample: the claim says a heading line with four hash
marks must not count as a matched section.  The pattern is not anchored
to line starts, and "#### Bugs" contains the alternative "### Bugs" as a
substring starting at its second character, so the handler takes the
matched-sections branch instead of the no-match branch. -/
theorem c4_four_hash_heading_matches :
    (find_bugs fourHashAgent "u" emptySettings).output = "# Bug Scan Results\n\n### Bugs"
  ∧ (find_bugs fourHashAgent "u" emptySettings).output ≠
      "# Bug Scan Results\n\nNo critical bugs or issues were identified in the scan.\n\n"
        ++ "Full review content:\n\n" ++ "#### Bugs\nNull dereference in handler." := by
  constructor <;> decide

/-- C4 amended: matching is case-sensitive and recognizes exactly the
six literal heading strings, but as unanchored substrings: every matched
section is one of the six literals, a line "#### Bugs" DOES match (via
"### Bugs" at its second character), while case variants such as
"#### bugs" and a single-hash "# Bugs" do not match. -/
theorem c4_heading_match_unanchored :
    (∀ s x : String, x ∈ findBugSections s → x ∈ headingStrings)
  ∧ findBugSections "#### Bugs\nNull dereference in handler." = ["### Bugs"]
  ∧ findBugSections "#### bugs\nNull dereference in handler." = []
  ∧ findBugSections "# Bugs\nNull dereference in handler." = [] := by
  refine ⟨fun s x hx => ?_, by decide, by decide, by decide⟩
  rw [findBugSections] at hx
  rw [List.mem_map] at hx
  obtain ⟨cs, hmem, hmk⟩ := hx
  have h1 : cs ∈ headingsL := findAux_mem_headingsL _ _ cs hmem
  rw [headingsL, List.mem_map] at h1
  obtain ⟨h, hh, hlist⟩ := h1
  have : String.mk cs = h := by rw [← hlist]; rfl
  exact (hmk ▸ this) ▸ hh

/-- Witness for C4 amended: the general part applied to the four-hash
input, whose matched section is the literal "### Bugs". -/
theorem c4_heading_match_unanchored_witness :
    ("### Bugs" ∈ findBugSections "#### Bugs\nNull dereference in handler.")
  ∧ ("### Bugs" ∈ headingStrings) :=
  ⟨by decide,
   c4_heading_match_unanchored.1 "#### Bugs\nNull dereference in handler." "### Bugs"
     (by decide)⟩

/-- C5: when the agent invocation returns `None`, each handler returns
its fixed fallback string. -/
theorem c5_none_gives_fallback (agent : Agent) (url : String) (s0 : Settings) :
    (agent (reviewOverrides s0) url "/review" = .ok none →
      (review_pr agent url s0).output = "Review completed, but no results were returned.")
  ∧ (agent s0 url "/describe" = .ok none →
      (describe_pr agent url s0).output
        = "Description generated, but no results were returned.")
  ∧ (agent (findBugsOverrides s0) url "/review" = .ok none →
      (find_bugs agent url s0).output
        = "Bug scan completed, but no results were returned.") := by
  refine ⟨fun h => ?_, fun h => ?_, fun h => ?_⟩
  · simp [review_pr, h, pyOrElse]
  · simp [describe_pr, h, pyOrElse]
  · simp [find_bugs, h]

/-- Witness for C5: a concrete none-returning agent on all three
handlers. -/
theorem c5_none_gives_fallback_witness :
    (review_pr noneAgent "u" emptySettings).output
        = "Review completed, but no results were returned."
  ∧ (describe_pr noneAgent "u" emptySettings).output
        = "Description generated, but no results were returned."
  ∧ (find_bugs noneAgent "u" emptySettings).output
        = "Bug scan completed, but no results were returned." :=
  ⟨(c5_none_gives_fallback noneAgent "u" emptySettings).1 rfl,
   (c5_none_gives_fallback noneAgent "u" emptySettings).2.1 rfl,
   (c5_none_gives_fallback noneAgent "u" emptySettings).2.2 rfl⟩

/-- C6: on every `review_pr` and `find_bugs` run, the agent is invoked
with command "/review" and observes, at call time, the settings with all
of the operation's overrides applied: the two `review` overrides, and
the seven `find_bugs` overrides written in source order (the call-time
state is exactly the ordered composition of the seven writes). -/
theorem c6_overrides_applied_before_call (agent : Agent) (url : String) (s0 : Settings) :
    (review_pr agent url s0).callCommand = "/review"
  ∧ (review_pr agent url s0).callSettings = reviewOverrides s0
  ∧ reviewOverrides s0 "pr_reviewer.enable_review_labels_security" = some (.bool false)
  ∧ reviewOverrides s0 "pr_reviewer.enable_review_labels_effort" = some (.bool false)
  ∧ (find_bugs agent url s0).callCommand = "/review"
  ∧ (find_bugs agent url s0).callSettings = findBugsOverrides s0
  ∧ findBugsOverrides s0 "pr_reviewer.enable_review_labels_security" = some (.bool false)
  ∧ findBugsOverrides s0 "pr_reviewer.enable_review_labels_effort" = some (.bool false)
  ∧ findBugsOverrides s0 "pr_reviewer.require_score_review" = some (.bool false)
  ∧ findBugsOverrides s0 "pr_reviewer.require_tests_review" = some (.bool false)
  ∧ findBugsOverrides s0 "pr_reviewer.require_security_review" = some (.bool true)
  ∧ findBugsOverrides s0 "pr_reviewer.require_focused_review" = some (.bool false)
  ∧ findBugsOverrides s0 "pr_reviewer.extra_instructions" = some (.str bugFocusInstructions) := by
  refine ⟨?_, ?_, ?_, ?_, ?_, ?_, ?_, ?_, ?_, ?_, ?_, ?_, ?_⟩
  · cases h : agent (reviewOverrides s0) url "/review" <;> simp [review_pr, h]
  · cases h : agent (reviewOverrides s0) url "/review" <;> simp [review_pr, h]
  · simp [reviewOverrides, Settings.set]
  · simp [reviewOverrides, Settings.set]
  · cases h : agent (findBugsOverrides s0) url "/review" <;> simp [find_bugs, h]
  · cases h : agent (findBugsOverrides s0) url "/review" <;> simp [find_bugs, h]
  · simp [findBugsOverrides, Settings.set]
  · simp [findBugsOverrides, Settings.set]
  · simp [findBugsOverrides, Settings.set]
  · simp [findBugsOverrides, Settings.set]
  · simp [findBugsOverrides, Settings.set]
  · simp [findBugsOverrides, Settings.set]
  · simp [findBugsOverrides, Settings.set]

/-- C7: when the `find_bugs` agent invocation returns normally, the five
overridden keys other than the two reset ones are not restored: they
still hold their overridden value `False` when the handler returns. -/
theorem c7_five_keys_not_restored (agent : Agent) (url : String) (s0 : Settings)
    (r : Option String) (h : agent (findBugsOverrides s0) url "/review" = .ok r) :
    (find_bugs agent url s0).settings "pr_reviewer.enable_review_labels_security"
        = some (.bool false)
  ∧ (find_bugs agent url s0).settings "pr_reviewer.enable_review_labels_effort"
        = some (.bool false)
  ∧ (find_bugs agent url s0).settings "pr_reviewer.require_score_review"
        = some (.bool false)
  ∧ (find_bugs agent url s0).settings "pr_reviewer.require_tests_review"
        = some (.bool false)
  ∧ (find_bugs agent url s0).settings "pr_reviewer.require_focused_review"
        = some (.bool false) := by
  simp only [find_bugs, h]
  refine ⟨?_, ?_, ?_, ?_, ?_⟩ <;>
    simp [findBugsReset, findBugsOverrides, Settings.set]

/-- Witness for C7: a concrete normally-returning `find_bugs` run. -/
theorem c7_five_keys_not_restored_witness :
    (find_bugs noneAgent "u" emptySettings).settings "pr_reviewer.enable_review_labels_security"
        = some (.bool false)
  ∧ (find_bugs noneAgent "u" emptySettings).settings "pr_reviewer.enable_review_labels_effort"
        = some (.bool false)
  ∧ (find_bugs noneAgent "u" emptySettings).settings "pr_reviewer.require_score_review"
        = some (.bool false)
  ∧ (find_bugs noneAgent "u" emptySettings).settings "pr_reviewer.require_tests_review"
        = some (.bool false)
  ∧ (find_bugs noneAgent "u" emptySettings).settings "pr_reviewer.require_focused_review"
        = some (.bool false) :=
  c7_five_keys_not_restored noneAgent "u" emptySettings none rfl

/-- C8: `describe_pr` performs no settings writes: whatever the agent
outcome, the settings state when the handler returns is the state it
started from, key for key. -/
theorem c8_describe_no_settings_writes (agent : Agent) (url : String) (s0 : Settings) :
    (describe_pr agent url s0).settings = s0 := by
  cases h : agent s0 url "/describe" <;> simp [describe_pr, h]

/-- C9: when the agent returns non-empty text in which none of the six
recognized headings occurs, `find_bugs` returns the fixed no-issues
phrase followed, under the "Full review content:" label, by the complete
original text. -/
theorem c9_no_heading_returns_full_text (agent : Agent) (url : String) (s0 : Settings)
    (t : String) (hcall : agent (findBugsOverrides s0) url "/review" = .ok (some t))
    (hne : t ≠ "") (hfree : headingFree t.toList = true) :
    (find_bugs agent url s0).output =
      "# Bug Scan Results\n\nNo critical bugs or issues were identified in the scan.\n\n"
        ++ "Full review content:\n\n" ++ t := by
  have hsec : findBugSections t = [] := by
    rw [findBugSections, findAux_of_headingFree _ _ hfree]
    rfl
  simp only [find_bugs, hcall]
  simp [bugScanTransform, hsec, hne]

/-- Witness for C9: the agent answers "All good.", which contains no
recognized heading. -/
theorem c9_no_heading_returns_full_text_witness :
    (find_bugs plainTextAgent "u" emptySettings).output =
      "# Bug Scan Results\n\nNo critical bugs or issues were identified in the scan.\n\n"
        ++ "Full review content:\n\n" ++ "All good." :=
  c9_no_heading_returns_full_text plainTextAgent "u" emptySettings "All good."
    rfl (by decide) (by decide)

/-- C10: an agent invocation returning the empty string is handled
exactly like one returning `None`: each handler returns its fixed
fallback string, because Python's falsy-result check does not
distinguish empty text from absent text. -/
theorem c10_empty_text_like_none (agent : Agent) (url : String) (s0 : Settings) :
    (agent (reviewOverrides s0) url "/review" = .ok (some "") →
      (review_pr agent url s0).output = "Review completed, but no results were returned.")
  ∧ (agent s0 url "/describe" = .ok (some "") →
      (describe_pr agent url s0).output
        = "Description generated, but no results were returned.")
  ∧ (agent (findBugsOverrides s0) url "/review" = .ok (some "") →
      (find_bugs agent url s0).output
        = "Bug scan completed, but no results were returned.") := by
  refine ⟨fun h => ?_, fun h => ?_, fun h => ?_⟩
  · simp [review_pr, h, pyOrElse]
  · simp [describe_pr, h, pyOrElse]
  · simp [find_bugs, h]

/-- Witness for C10: a concrete empty-string-returning agent on all
three handlers. -/
theorem c10_empty_text_like_none_witness :
    (review_pr emptyTextAgent "u" emptySettings).output
        = "Review completed, but no results were returned."
  ∧ (describe_pr emptyTextAgent "u" emptySettings).output
        = "Description generated, but no results were returned."
  ∧ (find_bugs emptyTextAgent "u" emptySettings).output
        = "Bug scan completed, but no results were returned." :=
  ⟨(c10_empty_text_like_none emptyTextAgent "u" emptySettings).1 rfl,
   (c10_empty_text_like_none emptyTextAgent "u" emptySettings).2.1 rfl,
   (c10_empty_text_like_none emptyTextAgent "u" emptySettings).2.2 rfl⟩

end PRAgentServer
